import Mathlib

/-!
Verification of the session-memory manager and query-understanding pipeline.

The data model follows src/schema/definitions.py, the memory store follows
src/core/memory.py and the query pipeline follows src/core/pipeline.py.
The language model call is embedded as an explicit input of type
`Except String _` (`.error` = the call raised, `.ok` = the value returned),
and the tokenizer as an abstract function `String → Nat`.
-/

/-- A chat message, after `ChatMessage` in src/schema/definitions.py. -/
structure ChatMessage where
  role : String
  content : String
deriving DecidableEq, Repr

/-- After `UserProfile` in src/schema/definitions.py. -/
structure UserProfile where
  prefs : List String
  constraints : List String
deriving DecidableEq, Repr

/-- After `MessageRange` in src/schema/definitions.py; the fields serialize
under the aliases `from` and `to`. Indices are Python ints, hence `Int`. -/
structure MessageRange where
  from_index : Int
  to_index : Int
deriving DecidableEq, Repr

/-- After `SessionSummary` in src/schema/definitions.py. -/
structure SessionSummary where
  user_profile : UserProfile
  key_facts : List String
  decisions : List String
  open_questions : List String
  todos : List String
deriving DecidableEq, Repr

/-- After `SummaryOutput` in src/schema/definitions.py. -/
structure SummaryOutput where
  session_summary : SessionSummary
  message_range_summarized : MessageRange
deriving DecidableEq, Repr

/-- The mutable state of `MemoryManager` (src/core/memory.py, lines 20-22):
history, optional structured summary, and the count of messages folded into
the summary so far. `summarized_count` is a Python int, hence `Int`. -/
structure MemoryState where
  history : List ChatMessage
  summary_output : Option SummaryOutput
  summarized_count : Int
deriving DecidableEq, Repr

/-- The state a fresh `MemoryManager.__init__` sets up (memory.py lines 20-22). -/
def initialState : MemoryState :=
  { history := [], summary_output := none, summarized_count := 0 }

/-! JSON serialization strings, after pydantic `model_dump_json(by_alias=True)`
(compact separators, field order = declaration order). Used by
`get_token_count` and `get_context`. -/

/-- JSON string literal with the minimal escaping relevant here (backslash and
double quote), as `json.dumps` produces for such strings. -/
def jsonQuote (s : String) : String :=
  "\x22" ++ ((s.replace "\\" "\\\\").replace "\x22" "\\\x22") ++ "\x22"

/-- JSON array of strings, compact form. -/
def dumpStringList (xs : List String) : String :=
  "[" ++ String.intercalate "," (xs.map jsonQuote) ++ "]"

/-- Compact JSON dump of a `UserProfile`. -/
def dumpUserProfile (u : UserProfile) : String :=
  "\x7b\x22prefs\x22:" ++ dumpStringList u.prefs ++
  ",\x22constraints\x22:" ++ dumpStringList u.constraints ++ "\x7d"

/-- Compact JSON dump of a `SessionSummary`. -/
def dumpSessionSummary (ss : SessionSummary) : String :=
  "\x7b\x22user_profile\x22:" ++ dumpUserProfile ss.user_profile ++
  ",\x22key_facts\x22:" ++ dumpStringList ss.key_facts ++
  ",\x22decisions\x22:" ++ dumpStringList ss.decisions ++
  ",\x22open_questions\x22:" ++ dumpStringList ss.open_questions ++
  ",\x22todos\x22:" ++ dumpStringList ss.todos ++ "\x7d"

/-- Compact JSON dump of a `MessageRange` with the wire aliases from/to. -/
def dumpMessageRange (r : MessageRange) : String :=
  "\x7b\x22from\x22:" ++ toString r.from_index ++
  ",\x22to\x22:" ++ toString r.to_index ++ "\x7d"

/-- `SummaryOutput.model_dump_json(by_alias=True)` as used in memory.py
lines 78 and 146. -/
def dumpSummaryJson (so : SummaryOutput) : String :=
  "\x7b\x22session_summary\x22:" ++ dumpSessionSummary so.session_summary ++
  ",\x22message_range_summarized\x22:" ++ dumpMessageRange so.message_range_summarized ++ "\x7d"

/-! The memory operations (src/core/memory.py). -/

/-- `MemoryManager.get_token_count` (memory.py lines 76-79): tokenize the
concatenation of all history contents followed by the serialized summary
(empty string when no summary). `tok` embeds `tiktoken` cl100k_base. -/
def get_token_count (tok : String → Nat) (s : MemoryState) : Nat :=
  let text := String.join (s.history.map (fun m => m.content))
  let summary_json := match s.summary_output with
    | some so => dumpSummaryJson so
    | none => ""
  tok (text ++ summary_json)

/-- `MemoryManager._run_summarization` (memory.py lines 91-140). `res` is the
outcome of `chain.invoke`: `.error` = it raised (caught at line 137),
`.ok none` = it returned a falsy result (the `if result:` guard at line 124
skips the update), `.ok (some r)` = it returned summary `r`. On success the
engine increments `summarized_count` by the number of absorbed messages,
overwrites the returned range with 0 .. summarized_count - 1, stores the
summary, and drops the absorbed first half of history. -/
def run_summarization (res : Except String (Option SummaryOutput)) (s : MemoryState) :
    MemoryState :=
  let mid_idx := s.history.length / 2
  if mid_idx = 0 then s
  else
    let msgs_to_process := s.history.take mid_idx
    match res with
    | .error _ => s
    | .ok none => s
    | .ok (some result) =>
      let processed_count := msgs_to_process.length
      let count := s.summarized_count + (processed_count : Int)
      { history := s.history.drop mid_idx
        summary_output := some
          { session_summary := result.session_summary
            message_range_summarized := { from_index := 0, to_index := count - 1 } }
        summarized_count := count }

/-- `MemoryManager._check_and_summarize` (memory.py lines 82-88): summarize
only when the current token count strictly exceeds the threshold. -/
def check_and_summarize (tok : String → Nat) (threshold : Nat)
    (res : Except String (Option SummaryOutput)) (s : MemoryState) : MemoryState :=
  if get_token_count tok s > threshold then run_summarization res s else s

/-- `MemoryManager.add_message` (memory.py lines 69-73): append the message,
persist (no in-memory state change), then run the threshold check. -/
def add_message (tok : String → Nat) (threshold : Nat)
    (res : Except String (Option SummaryOutput)) (s : MemoryState)
    (role content : String) : MemoryState :=
  let s1 := { s with history := s.history ++ [{ role := role, content := content }] }
  check_and_summarize tok threshold res s1

/-- One `add_message` call of a run: its arguments plus the outcome of the
model invocation that a triggered summarization would consume. -/
structure AddCall where
  role : String
  content : String
  llm : Except String (Option SummaryOutput)
deriving Repr

/-- Run a sequence of `add_message` calls from the fresh initial state. -/
def run_adds (tok : String → Nat) (threshold : Nat) (calls : List AddCall) : MemoryState :=
  calls.foldl (fun s c => add_message tok threshold c.llm s c.role c.content) initialState

/-- The documented invariant relating `summarized_count` to the stored range
(spec section 3, MemoryState). -/
def countInvariant (s : MemoryState) : Prop :=
  match s.summary_output with
  | some so => s.summarized_count = so.message_range_summarized.to_index + 1
  | none => s.summarized_count = 0

/-! The key whitelist and mapper (src/schema/definitions.py lines 29-50) and
the `needed_context_from_memory` validator (lines 60-86). Python string
methods `strip`, `startswith` and `replace` are embedded as explicit
character-list functions so that they evaluate by kernel reduction. -/

/-- Python `str.strip()`: remove whitespace from both ends. -/
def pyStrip (s : String) : String :=
  ⟨(((s.data.dropWhile Char.isWhitespace).reverse.dropWhile Char.isWhitespace).reverse)⟩

/-- Python `str.startswith(pat)`. -/
def pyStartsWith (s pat : String) : Bool :=
  pat.data.isPrefixOf s.data

/-- Left-to-right non-overlapping replacement of `pat` by `rep`, the
semantics of Python `str.replace` for non-empty `pat`. Structural recursion
on a fuel argument (each step consumes at least one character, so any fuel
at or above the input length gives the untruncated replacement) keeps the
function kernel-reducible. -/
def replaceList (pat rep : List Char) : Nat → List Char → List Char
  | 0, l => l
  | _ + 1, [] => []
  | fuel + 1, c :: rest =>
    if pat.isPrefixOf (c :: rest) then
      rep ++ replaceList pat rep fuel (rest.drop (pat.length - 1))
    else
      c :: replaceList pat rep fuel rest

/-- Python `s.replace(pat, rep)` (every occurrence, not only a leading one). -/
def pyReplace (s pat rep : String) : String :=
  ⟨replaceList pat.data rep.data s.data.length s.data⟩

/-- `SessionSummary.model_fields.keys()` in declaration order. -/
def sessionSummaryFieldNames : List String :=
  ["user_profile", "key_facts", "decisions", "open_questions", "todos"]

/-- `UserProfile.model_fields.keys()` in declaration order. -/
def userProfileFieldNames : List String :=
  ["prefs", "constraints"]

/-- The `_KEY_MAPPING` dict built by `get_allowed_keys_info`
(definitions.py lines 29-50): every top-level SessionSummary field maps to
itself; every UserProfile field maps from both its bare name and its dotted
path to the dotted path. All keys are distinct, so an association list
looked up front-to-back has exactly the Python dict behaviour. -/
def keyMapping : List (String × String) :=
  sessionSummaryFieldNames.map (fun k => (k, k)) ++
  userProfileFieldNames.flatMap (fun k =>
    [(k, "user_profile." ++ k), ("user_profile." ++ k, "user_profile." ++ k)])

/-- The per-item body of `validate_needed_context_keys` (definitions.py
lines 67-83): strip whitespace; if the item starts with `session_summary.`
remove every occurrence of that substring (Python `replace`); look the
result up in the mapping, `none` meaning the item is dropped. -/
def normalizeKey (raw : String) : Option String :=
  let item := pyStrip raw
  let item2 :=
    if pyStartsWith item "session_summary." then pyReplace item "session_summary." ""
    else item
  List.lookup item2 keyMapping

/-- `QueryUnderstandingOutput.validate_needed_context_keys` (definitions.py
lines 60-86): empty input short-circuits; otherwise normalize each item,
drop unmapped ones, and deduplicate (`list(set(cleaned))` — order is a
set-iteration artifact, so theorems only use the element set). -/
def validate_needed_context_keys (v : List String) : List String :=
  if v = [] then []
  else (v.filterMap normalizeKey).dedup

/-- After `QueryUnderstandingOutput` in src/schema/definitions.py. -/
structure QueryUnderstandingOutput where
  original_query : String
  is_ambiguous : Bool
  rewritten_query : String
  needed_context_from_memory : List String
  clarifying_questions : List String
  final_augmented_context : String
deriving DecidableEq, Repr

/-- Constructing a `QueryUnderstandingOutput` runs the pydantic
before-validator on `needed_context_from_memory`. -/
def mkQueryUnderstandingOutput (oq : String) (amb : Bool) (rw : String)
    (needed clar : List String) (ctx : String) : QueryUnderstandingOutput :=
  { original_query := oq
    is_ambiguous := amb
    rewritten_query := rw
    needed_context_from_memory := validate_needed_context_keys needed
    clarifying_questions := clar
    final_augmented_context := ctx }

/-- `MemoryManager.get_context` (memory.py lines 143-148). -/
def get_context (s : MemoryState) : String :=
  let ctx := match s.summary_output with
    | some so => "SUMMARY_OUTPUT (JSON):\n" ++ dumpSummaryJson so ++ "\n"
    | none => ""
  ctx ++ "\nRECENT MESSAGES:\n" ++
    String.intercalate "\n" (s.history.map (fun m => m.role ++ ": " ++ m.content))

/-- `QueryPipeline.process_query` (src/core/pipeline.py lines 16-57). The
memory store is threaded explicitly: the method only reads it through
`get_context`, so the returned state is what the Python object holds after
the call. `res` is the structured model call: `.ok` = the validated output
it returned, `.error` = it raised (caught at line 48, where the degraded
default is built: not ambiguous, query unchanged, empty lists, and the last
1000 characters of the raw context string). -/
def process_query (s : MemoryState) (user_query : String)
    (res : Except String QueryUnderstandingOutput) :
    MemoryState × QueryUnderstandingOutput :=
  let context_str := get_context s
  match res with
  | .ok result => (s, result)
  | .error _ =>
    (s, mkQueryUnderstandingOutput user_query false user_query [] []
      (context_str.takeRight 1000))

/-! Persistence (memory.py lines 28-66). The JSON document written by
`save_state` and read back by `load_state` is embedded at the value level:
`json.dump` followed by `json.load` of a finite document is the identity on
this type, so the file is represented by the `JValue` it parses to (or by
the two failure shapes `missing` / `unparseable`). -/

/-- A JSON value. Objects carry their fields in order; documents produced by
the program have distinct keys, so front-to-back association lookup is the
Python dict lookup. -/
inductive JValue where
  | null : JValue
  | bool : Bool → JValue
  | num : Int → JValue
  | str : String → JValue
  | arr : List JValue → JValue
  | obj : List (String × JValue) → JValue

/-- Python `dict.get(k)`: first binding of `k`, if any. -/
def dictGet (fields : List (String × JValue)) (k : String) : Option JValue :=
  List.lookup k fields

/-- Python truthiness of a JSON value (`if summary_data:` at line 59). -/
def jTruthy : JValue → Bool
  | .null => false
  | .bool b => b
  | .num n => n != 0
  | .str s => s != ""
  | .arr xs => !xs.isEmpty
  | .obj fs => !fs.isEmpty

/-- The exceptions `load_state` can meet: pydantic `ValidationError` and
`json.JSONDecodeError` are caught at line 65; `TypeError` (unpacking a
non-mapping with `**`, or iterating a non-iterable) and `AttributeError`
(calling `.get` on a non-dict) are not. -/
inductive PyError where
  | typeError : PyError
  | attributeError : PyError
  | validationError : PyError
deriving DecidableEq, Repr

/-- What the persistence path holds: no file, a file that is not JSON
(`json.load` raises `JSONDecodeError`), or a parsed JSON document. -/
inductive FileContent where
  | missing : FileContent
  | unparseable : FileContent
  | parsed : JValue → FileContent

/-- `ChatMessage.model_dump()`. -/
def chatMessageToJson (m : ChatMessage) : JValue :=
  .obj [("role", .str m.role), ("content", .str m.content)]

/-- JSON array of strings as a value. -/
def strListToJson (xs : List String) : JValue :=
  .arr (xs.map (fun s => .str s))

/-- `UserProfile.model_dump()`. -/
def userProfileToJson (u : UserProfile) : JValue :=
  .obj [("prefs", strListToJson u.prefs), ("constraints", strListToJson u.constraints)]

/-- `SessionSummary.model_dump()`. -/
def sessionSummaryToJson (ss : SessionSummary) : JValue :=
  .obj [("user_profile", userProfileToJson ss.user_profile),
        ("key_facts", strListToJson ss.key_facts),
        ("decisions", strListToJson ss.decisions),
        ("open_questions", strListToJson ss.open_questions),
        ("todos", strListToJson ss.todos)]

/-- `MessageRange.model_dump(by_alias=True)`: wire keys are from/to. -/
def messageRangeToJson (r : MessageRange) : JValue :=
  .obj [("from", .num r.from_index), ("to", .num r.to_index)]

/-- `SummaryOutput.model_dump(by_alias=True)`. -/
def summaryOutputToJson (so : SummaryOutput) : JValue :=
  .obj [("session_summary", sessionSummaryToJson so.session_summary),
        ("message_range_summarized", messageRangeToJson so.message_range_summarized)]

/-- The document `MemoryManager.save_state` writes (memory.py lines 33-37). -/
def save_doc (s : MemoryState) : JValue :=
  .obj [("history", .arr (s.history.map chatMessageToJson)),
        ("summary_output",
          match s.summary_output with
          | some so => summaryOutputToJson so
          | none => .null),
        ("summarized_count", .num s.summarized_count)]

/-- `ChatMessage(**m)`: `m` must be a mapping (else `TypeError`); pydantic
requires `role` and `content` as strings (else `ValidationError`; extra
keys are ignored, and pydantic v2 does not coerce numbers to str). -/
def parseChatMessage (j : JValue) : Except PyError ChatMessage :=
  match j with
  | .obj fields =>
    match dictGet fields "role", dictGet fields "content" with
    | some (.str r), some (.str c) => .ok { role := r, content := c }
    | _, _ => .error .validationError
  | _ => .error .typeError

/-- The list comprehension over history entries: first exception wins. -/
def parseChatMessages : List JValue → Except PyError (List ChatMessage)
  | [] => .ok []
  | j :: rest => do
    let m ← parseChatMessage j
    let ms ← parseChatMessages rest
    pure (m :: ms)

/-- `[ChatMessage(**m) for m in state.get("history", [])]`: iterating a
non-list either yields non-mappings (string characters, dict keys) and
raises `TypeError` at the first one, or raises `TypeError` directly for a
non-iterable; empty iterables yield the empty history. -/
def parseHistory (j : JValue) : Except PyError (List ChatMessage) :=
  match j with
  | .arr xs => parseChatMessages xs
  | .str s => if s = "" then .ok [] else .error .typeError
  | .obj [] => .ok []
  | .obj _ => .error .typeError
  | _ => .error .typeError

/-- pydantic `List[str]` field validation: the value must be a list whose
elements are strings, else `ValidationError`. -/
def parseStrElems : List JValue → Except PyError (List String)
  | [] => .ok []
  | .str s :: rest => do
    let ss ← parseStrElems rest
    pure (s :: ss)
  | _ :: _ => .error .validationError

/-- pydantic `List[str]` value: non-lists fail validation. -/
def parseStrList (j : JValue) : Except PyError (List String) :=
  match j with
  | .arr xs => parseStrElems xs
  | _ => .error .validationError

/-- A `List[str]` field with `default_factory=list`: absent means `[]`. -/
def parseOptStrList (fields : List (String × JValue)) (k : String) :
    Except PyError (List String) :=
  match dictGet fields k with
  | none => .ok []
  | some v => parseStrList v

/-- Nested `UserProfile` validation: must be a mapping; both fields default
to the empty list. -/
def parseUserProfile (j : JValue) : Except PyError UserProfile :=
  match j with
  | .obj fields => do
    let prefs ← parseOptStrList fields "prefs"
    let constraints ← parseOptStrList fields "constraints"
    pure { prefs := prefs, constraints := constraints }
  | _ => .error .validationError

/-- Nested `SessionSummary` validation: `user_profile` is required, the
string-list fields default to empty. -/
def parseSessionSummary (j : JValue) : Except PyError SessionSummary :=
  match j with
  | .obj fields => do
    let up ← match dictGet fields "user_profile" with
      | none => .error .validationError
      | some v => parseUserProfile v
    let kf ← parseOptStrList fields "key_facts"
    let ds ← parseOptStrList fields "decisions"
    let oq ← parseOptStrList fields "open_questions"
    let td ← parseOptStrList fields "todos"
    pure { user_profile := up, key_facts := kf, decisions := ds,
           open_questions := oq, todos := td }
  | _ => .error .validationError

/-- A required int field that `populate_by_name` lets arrive under either
its alias or its field name, alias first. -/
def parseIntField (fields : List (String × JValue)) (aliasKey fieldKey : String) :
    Except PyError Int :=
  match dictGet fields aliasKey with
  | some (.num n) => .ok n
  | some _ => .error .validationError
  | none =>
    match dictGet fields fieldKey with
    | some (.num n) => .ok n
    | some _ => .error .validationError
    | none => .error .validationError

/-- Nested `MessageRange` validation with the from/to aliases. -/
def parseMessageRange (j : JValue) : Except PyError MessageRange :=
  match j with
  | .obj fields => do
    let f ← parseIntField fields "from" "from_index"
    let t ← parseIntField fields "to" "to_index"
    pure { from_index := f, to_index := t }
  | _ => .error .validationError

/-- `SummaryOutput(**summary_data)`: a non-mapping cannot be unpacked with
`**` (`TypeError`); both fields are required. -/
def parseSummaryOutput (j : JValue) : Except PyError SummaryOutput :=
  match j with
  | .obj fields => do
    let ss ← match dictGet fields "session_summary" with
      | none => .error .validationError
      | some v => parseSessionSummary v
    let mr ← match dictGet fields "message_range_summarized" with
      | none => .error .validationError
      | some v => parseMessageRange v
    pure { session_summary := ss, message_range_summarized := mr }
  | _ => .error .typeError

/-- `state.get("summarized_count", 0)` stores the raw JSON value with no
validation; the typed state only represents the integer case, which is the
only one the program itself ever writes, so other shapes are embedded as 0. -/
def parseCount (fields : List (String × JValue)) : Int :=
  match dictGet fields "summarized_count" with
  | some (.num n) => n
  | _ => 0

/-- `MemoryManager.load_state` (memory.py lines 46-66), with the caught and
uncaught exception paths made explicit. The three assignments run in order
inside one `try`: a caught error (`JSONDecodeError` or `ValidationError`)
leaves every field assigned so far in place and abandons the rest;
`TypeError` and `AttributeError` propagate to the caller as `.error`. -/
def load_state (s : MemoryState) (f : FileContent) : Except PyError MemoryState :=
  match f with
  | .missing => .ok s
  | .unparseable => .ok s
  | .parsed doc =>
    match doc with
    | .obj fields =>
      match parseHistory ((dictGet fields "history").getD (.arr [])) with
      | .error .validationError => .ok s
      | .error e => .error e
      | .ok hist =>
        let s1 := { s with history := hist }
        match dictGet fields "summary_output" with
        | none => .ok { s1 with summarized_count := parseCount fields }
        | some sj =>
          if jTruthy sj then
            match parseSummaryOutput sj with
            | .error .validationError => .ok s1
            | .error e => .error e
            | .ok so =>
              .ok { s1 with summary_output := some so,
                            summarized_count := parseCount fields }
          else .ok { s1 with summarized_count := parseCount fields }
    | _ => .error .attributeError

/-! Helper lemmas about single summarization steps. -/

lemma run_summarization_error (msg : String) (s : MemoryState) :
    run_summarization (.error msg) s = s := by
  unfold run_summarization
  split <;> simp_all

lemma run_summarization_falsy (s : MemoryState) :
    run_summarization (.ok none) s = s := by
  unfold run_summarization
  split <;> simp_all

lemma take_half_length (s : MemoryState) :
    (s.history.take (s.history.length / 2)).length = s.history.length / 2 := by
  simp [List.length_take]
  omega

lemma run_summarization_success (r : SummaryOutput) (s : MemoryState)
    (h : s.history.length / 2 ≠ 0) :
    run_summarization (.ok (some r)) s =
      { history := s.history.drop (s.history.length / 2)
        summary_output := some
          { session_summary := r.session_summary
            message_range_summarized :=
              { from_index := 0
                to_index := s.summarized_count + ((s.history.length / 2 : Nat) : Int) - 1 } }
        summarized_count := s.summarized_count + ((s.history.length / 2 : Nat) : Int) } := by
  simp only [run_summarization, if_neg h, take_half_length]

lemma run_summarization_noop (res : Except String (Option SummaryOutput))
    (s : MemoryState) (h : s.history.length / 2 = 0) :
    run_summarization res s = s := by
  unfold run_summarization
  rw [if_pos h]

lemma summarized_count_le_run_summarization
    (res : Except String (Option SummaryOutput)) (s : MemoryState) :
    s.summarized_count ≤ (run_summarization res s).summarized_count := by
  by_cases h : s.history.length / 2 = 0
  · rw [run_summarization_noop res s h]
  · cases res with
    | error msg => rw [run_summarization_error]
    | ok v =>
      cases v with
      | none => rw [run_summarization_falsy]
      | some r =>
        rw [run_summarization_success r s h]
        simp only
        omega

lemma countInvariant_run_summarization
    (res : Except String (Option SummaryOutput)) (s : MemoryState)
    (h : countInvariant s) :
    countInvariant (run_summarization res s) := by
  by_cases hm : s.history.length / 2 = 0
  · rwa [run_summarization_noop res s hm]
  · cases res with
    | error msg => rwa [run_summarization_error]
    | ok v =>
      cases v with
      | none => rwa [run_summarization_falsy]
      | some r =>
        rw [run_summarization_success r s hm]
        unfold countInvariant
        simp only
        omega

lemma summarized_count_le_check_and_summarize (tok : String → Nat) (threshold : Nat)
    (res : Except String (Option SummaryOutput)) (s : MemoryState) :
    s.summarized_count ≤ (check_and_summarize tok threshold res s).summarized_count := by
  unfold check_and_summarize
  split
  · exact summarized_count_le_run_summarization res s
  · exact le_refl _

lemma countInvariant_check_and_summarize (tok : String → Nat) (threshold : Nat)
    (res : Except String (Option SummaryOutput)) (s : MemoryState)
    (h : countInvariant s) :
    countInvariant (check_and_summarize tok threshold res s) := by
  unfold check_and_summarize
  split
  · exact countInvariant_run_summarization res s h
  · exact h

lemma countInvariant_append (s : MemoryState) (m : ChatMessage)
    (h : countInvariant s) :
    countInvariant { s with history := s.history ++ [m] } := h

lemma summarized_count_le_add_message (tok : String → Nat) (threshold : Nat)
    (res : Except String (Option SummaryOutput)) (s : MemoryState)
    (role content : String) :
    s.summarized_count ≤ (add_message tok threshold res s role content).summarized_count :=
  summarized_count_le_check_and_summarize tok threshold res _

lemma countInvariant_add_message (tok : String → Nat) (threshold : Nat)
    (res : Except String (Option SummaryOutput)) (s : MemoryState)
    (role content : String) (h : countInvariant s) :
    countInvariant (add_message tok threshold res s role content) :=
  countInvariant_check_and_summarize tok threshold res _
    (countInvariant_append s _ h)

lemma summarized_count_le_foldl (tok : String → Nat) (threshold : Nat)
    (calls : List AddCall) (s : MemoryState) :
    s.summarized_count ≤
      (calls.foldl (fun t c => add_message tok threshold c.llm t c.role c.content) s).summarized_count := by
  induction calls generalizing s with
  | nil => exact le_refl _
  | cons c rest ih =>
    exact le_trans (summarized_count_le_add_message tok threshold c.llm s c.role c.content)
      (ih _)

lemma countInvariant_foldl (tok : String → Nat) (threshold : Nat)
    (calls : List AddCall) (s : MemoryState) (h : countInvariant s) :
    countInvariant
      (calls.foldl (fun t c => add_message tok threshold c.llm t c.role c.content) s) := by
  induction calls generalizing s with
  | nil => exact h
  | cons c rest ih =>
    exact ih _ (countInvariant_add_message tok threshold c.llm s c.role c.content h)

/-- C1: for every sequence of addMessage calls starting from the empty initial
state, summarized_count is non-decreasing along the run, and after every
operation summarized_count equals message_range_summarized.to_index + 1
whenever summary_output is present, and equals 0 whenever it is absent.
The state after any number of operations of a run is `run_adds` of the
corresponding call list, so quantifying over a split `pre ++ suff` covers
both the invariant at every intermediate point and monotonicity between any
two points of one run. -/
theorem addMessage_count_invariant_and_monotone (tok : String → Nat) (threshold : Nat)
    (pre suff : List AddCall) :
    countInvariant (run_adds tok threshold (pre ++ suff)) ∧
    (run_adds tok threshold pre).summarized_count ≤
      (run_adds tok threshold (pre ++ suff)).summarized_count := by
  constructor
  · exact countInvariant_foldl tok threshold (pre ++ suff) initialState rfl
  · unfold run_adds
    rw [List.foldl_append]
    exact summarized_count_le_foldl tok threshold suff _

/-- C2: when the token count exceeds the threshold and the history holds
n ≥ 2 messages, a successful summarization drops the first n / 2 messages,
leaves the remaining n - n / 2, adds n / 2 to summarized_count, replaces the
stored summary wholesale with the model result, and overwrites the returned
range to from_index = 0, to_index = summarized_count - 1 no matter what
range `r` proposed; when n < 2 the call is a no-op. -/
theorem triggered_summarization_success (tok : String → Nat) (threshold : Nat)
    (s : MemoryState) (r : SummaryOutput)
    (hgt : get_token_count tok s > threshold) :
    (2 ≤ s.history.length →
      check_and_summarize tok threshold (.ok (some r)) s =
        { history := s.history.drop (s.history.length / 2)
          summary_output := some
            { session_summary := r.session_summary
              message_range_summarized :=
                { from_index := 0
                  to_index := s.summarized_count + ((s.history.length / 2 : Nat) : Int) - 1 } }
          summarized_count := s.summarized_count + ((s.history.length / 2 : Nat) : Int) } ∧
      (check_and_summarize tok threshold (.ok (some r)) s).history.length =
        s.history.length - s.history.length / 2) ∧
    (s.history.length < 2 → check_and_summarize tok threshold (.ok (some r)) s = s) := by
  unfold check_and_summarize
  rw [if_pos hgt]
  constructor
  · intro h2
    have hm : s.history.length / 2 ≠ 0 := by omega
    rw [run_summarization_success r s hm]
    refine ⟨rfl, ?_⟩
    simp [List.length_drop]
  · intro h2
    have hm : s.history.length / 2 = 0 := by omega
    exact run_summarization_noop _ s hm

/-- Witness for C2 at a concrete over-threshold two-message state: the model
proposes the range 5..7, and the engine stores 0..0 instead. -/
theorem triggered_summarization_success_witness :
    get_token_count String.length
      { history := [{ role := "user", content := "aaa" }, { role := "user", content := "bbb" }]
        summary_output := none, summarized_count := 0 } > 0 ∧
    check_and_summarize String.length 0 (.ok (some
        { session_summary :=
            { user_profile := { prefs := [], constraints := [] }
              key_facts := [], decisions := [], open_questions := [], todos := [] }
          message_range_summarized := { from_index := 5, to_index := 7 } }))
      { history := [{ role := "user", content := "aaa" }, { role := "user", content := "bbb" }]
        summary_output := none, summarized_count := 0 } =
      { history := [{ role := "user", content := "bbb" }]
        summary_output := some
          { session_summary :=
              { user_profile := { prefs := [], constraints := [] }
                key_facts := [], decisions := [], open_questions := [], todos := [] }
            message_range_summarized := { from_index := 0, to_index := 0 } }
        summarized_count := 1 } := by
  refine ⟨by decide, ?_⟩
  have h := triggered_summarization_success String.length 0
    { history := [{ role := "user", content := "aaa" }, { role := "user", content := "bbb" }]
      summary_output := none, summarized_count := 0 }
    { session_summary :=
        { user_profile := { prefs := [], constraints := [] }
          key_facts := [], decisions := [], open_questions := [], todos := [] }
      message_range_summarized := { from_index := 5, to_index := 7 } }
    (by decide)
  rw [(h.1 (by decide)).1]
  rfl

/-- C4: when the structured model call raises, summarization leaves any state
exactly as it was, and an addMessage whose triggered summarization raises
returns the pre-attempt state (the appended history with summary and count
untouched) instead of propagating the exception. -/
theorem summarization_failure_preserves_state (tok : String → Nat) (threshold : Nat)
    (s : MemoryState) (role content msg : String) :
    (∀ s' : MemoryState, run_summarization (.error msg) s' = s') ∧
    add_message tok threshold (.error msg) s role content =
      { s with history := s.history ++ [{ role := role, content := content }] } := by
  refine ⟨fun s' => run_summarization_error msg s', ?_⟩
  simp only [add_message, check_and_summarize]
  split
  · exact run_summarization_error msg _
  · rfl

/-- C8: an addMessage after which the token count stays at or below the
threshold performs no summarization: the new state is the old one with the
message appended, so history grows by exactly one and summary_output and
summarized_count are unchanged. -/
theorem add_message_below_threshold (tok : String → Nat) (threshold : Nat)
    (res : Except String (Option SummaryOutput)) (s : MemoryState)
    (role content : String)
    (hle : get_token_count tok
        { s with history := s.history ++ [{ role := role, content := content }] } ≤ threshold) :
    add_message tok threshold res s role content =
      { s with history := s.history ++ [{ role := role, content := content }] } ∧
    (add_message tok threshold res s role content).history.length = s.history.length + 1 ∧
    (add_message tok threshold res s role content).summary_output = s.summary_output ∧
    (add_message tok threshold res s role content).summarized_count = s.summarized_count := by
  have heq : add_message tok threshold res s role content =
      { s with history := s.history ++ [{ role := role, content := content }] } := by
    unfold add_message check_and_summarize
    rw [if_neg (by omega)]
  refine ⟨heq, ?_, ?_, ?_⟩ <;> (rw [heq]; try simp)

/-- Witness for C8, the spec's own scenario: empty history, addMessage
("user", "hi"), threshold 1000. -/
theorem add_message_below_threshold_witness :
    get_token_count String.length
      { initialState with history := initialState.history ++ [{ role := "user", content := "hi" }] } ≤ 1000 ∧
    add_message String.length 1000 (.ok none) initialState "user" "hi" =
      { initialState with history := initialState.history ++ [{ role := "user", content := "hi" }] } := by
  refine ⟨by decide, ?_⟩
  exact (add_message_below_threshold String.length 1000 (.ok none) initialState
    "user" "hi" (by decide)).1

/-- C5: a failing structured call inside processQuery yields, instead of an
exception, the default output: not ambiguous, the query passed through
unchanged, empty key and question lists, and the last 1000 characters of the
raw context string. -/
theorem process_query_failure_default (s : MemoryState) (q msg : String) :
    (process_query s q (.error msg)).2 =
      { original_query := q
        is_ambiguous := false
        rewritten_query := q
        needed_context_from_memory := []
        clarifying_questions := []
        final_augmented_context := (get_context s).takeRight 1000 } := by
  simp [process_query, mkQueryUnderstandingOutput, validate_needed_context_keys]

/-- C9: processQuery only reads the memory store; whatever the structured
call does (succeeds or raises), the memory state it hands back is the one it
was given. -/
theorem process_query_preserves_memory (s : MemoryState) (q : String)
    (res : Except String QueryUnderstandingOutput) :
    (process_query s q res).1 = s := by
  cases res <;> rfl

/-- C10: the token count is a function of the concatenated message contents
(no separators, no role markers) and of the stored summary alone: two states
agreeing on those — however the content is split into messages and whatever
the roles are — get the same count under every tokenizer. -/
theorem get_token_count_depends_only_on_text (tok : String → Nat)
    (s1 s2 : MemoryState)
    (hc : String.join (s1.history.map (fun m => m.content)) =
          String.join (s2.history.map (fun m => m.content)))
    (hs : s1.summary_output = s2.summary_output) :
    get_token_count tok s1 = get_token_count tok s2 := by
  unfold get_token_count
  rw [hc, hs]

/-- Witness for C10: one two-content message versus two one-content messages
with different roles, no summary. -/
theorem get_token_count_depends_only_on_text_witness :
    String.join ([({ role := "user", content := "ab" } : ChatMessage)].map (fun m => m.content)) =
      String.join ([({ role := "assistant", content := "a" } : ChatMessage),
                    { role := "system", content := "b" }].map (fun m => m.content)) ∧
    get_token_count String.length
        { history := [{ role := "user", content := "ab" }]
          summary_output := none, summarized_count := 0 } =
      get_token_count String.length
        { history := [{ role := "assistant", content := "a" },
                      { role := "system", content := "b" }]
          summary_output := none, summarized_count := 0 } := by
  refine ⟨by decide, ?_⟩
  exact get_token_count_depends_only_on_text String.length
    { history := [{ role := "user", content := "ab" }]
      summary_output := none, summarized_count := 0 }
    { history := [{ role := "assistant", content := "a" },
                  { role := "system", content := "b" }]
      summary_output := none, summarized_count := 0 }
    (by decide) rfl

/-! Theorems about key normalization (claim C6). -/

/-- The normalization step exactly as the claim words it: strip one leading
`session_summary.` prefix if present, then look the result up in the
mapping table. Written from the claim for comparison with `normalizeKey`,
which is written from the code. -/
def normalizeKeyLeadingStrip (raw : String) : Option String :=
  let item := if pyStartsWith raw "session_summary."
    then ⟨raw.data.drop ("session_summary." : String).data.length⟩
    else raw
  List.lookup item keyMapping

/-- Counterexample to C6: on a key containing the prefix twice, the code
(Python `replace`, every occurrence) removes both copies and keeps the
mapped key, while the claimed strip-one-leading-prefix procedure leaves an
unmapped key that would be dropped. -/
theorem normalize_strip_leading_counterexample :
    validate_needed_context_keys ["session_summary.session_summary.key_facts"] =
      ["key_facts"] ∧
    normalizeKeyLeadingStrip "session_summary.session_summary.key_facts" = none := by
  constructor
  · rfl
  · rfl

/-- C6 amended: each raw key is whitespace-trimmed; if the trimmed key starts
with `session_summary.`, every occurrence of that substring is removed
(Python `replace`), not only a leading one; the result is looked up in the
static mapping table (the literal table below: SessionSummary top-level
fields map to themselves, UserProfile fields are accepted both bare and
dotted); unmapped keys are dropped; the output is the deduplicated set of
mapped keys, characterized here by membership so that no element order is
asserted. The claim's own example still holds. -/
theorem validate_needed_context_keys_amended (v : List String) (x : String) :
    (x ∈ validate_needed_context_keys v ↔ ∃ raw ∈ v, normalizeKey raw = some x) ∧
    keyMapping =
      [("user_profile", "user_profile"), ("key_facts", "key_facts"),
       ("decisions", "decisions"), ("open_questions", "open_questions"),
       ("todos", "todos"), ("prefs", "user_profile.prefs"),
       ("user_profile.prefs", "user_profile.prefs"),
       ("constraints", "user_profile.constraints"),
       ("user_profile.constraints", "user_profile.constraints")] ∧
    (validate_needed_context_keys
        ["constraints", "session_summary.key_facts", "bogus_key"]).toFinset =
      ({"user_profile.constraints", "key_facts"} : Finset String) := by
  refine ⟨?_, rfl, by decide⟩
  unfold validate_needed_context_keys
  split
  · rename_i h
    subst h
    simp
  · simp [List.mem_dedup, List.mem_filterMap]

/-! Round-trip lemmas for the persistence document (claim C3). -/

lemma parseChatMessage_roundtrip (m : ChatMessage) :
    parseChatMessage (chatMessageToJson m) = .ok m := by
  cases m
  rfl

lemma parseChatMessages_roundtrip (ms : List ChatMessage) :
    parseChatMessages (ms.map chatMessageToJson) = .ok ms := by
  induction ms with
  | nil => rfl
  | cons m rest ih =>
    simp only [List.map, parseChatMessages, parseChatMessage_roundtrip, ih]
    rfl

lemma parseStrElems_roundtrip (xs : List String) :
    parseStrElems (xs.map (fun s => .str s)) = .ok xs := by
  induction xs with
  | nil => rfl
  | cons x rest ih =>
    simp [parseStrElems, ih]

lemma parseStrList_roundtrip (xs : List String) :
    parseStrList (strListToJson xs) = .ok xs := by
  simp [parseStrList, strListToJson, parseStrElems_roundtrip]

lemma parseUserProfile_roundtrip (u : UserProfile) :
    parseUserProfile (userProfileToJson u) = .ok u := by
  cases u
  simp [parseUserProfile, userProfileToJson, parseOptStrList, dictGet, List.lookup,
    parseStrList_roundtrip]
  rfl

lemma parseSessionSummary_roundtrip (ss : SessionSummary) :
    parseSessionSummary (sessionSummaryToJson ss) = .ok ss := by
  cases ss
  simp [parseSessionSummary, sessionSummaryToJson, parseOptStrList, dictGet, List.lookup,
    parseStrList_roundtrip, parseUserProfile_roundtrip]
  rfl

lemma parseMessageRange_roundtrip (r : MessageRange) :
    parseMessageRange (messageRangeToJson r) = .ok r := by
  cases r
  rfl

lemma jTruthy_summaryOutputToJson (so : SummaryOutput) :
    jTruthy (summaryOutputToJson so) = true := rfl

lemma parseSummaryOutput_roundtrip (so : SummaryOutput) :
    parseSummaryOutput (summaryOutputToJson so) = .ok so := by
  cases so
  simp [parseSummaryOutput, summaryOutputToJson, dictGet, List.lookup,
    parseSessionSummary_roundtrip, parseMessageRange_roundtrip]
  rfl

/-- C3: saving any MemoryState and loading the written document into a fresh
session reproduces exactly that state, the from/to wire aliases of the
message range included (the saved range travels under the keys from and to
and is read back through them). -/
theorem save_then_load_roundtrip (s : MemoryState) :
    load_state initialState (.parsed (save_doc s)) = .ok s := by
  cases s with
  | mk history summary count =>
    cases summary with
    | none =>
      simp [load_state, save_doc, dictGet, List.lookup, parseHistory,
        parseChatMessages_roundtrip, jTruthy, parseCount, initialState]
    | some so =>
      simp [load_state, save_doc, dictGet, List.lookup, parseHistory,
        parseChatMessages_roundtrip, jTruthy_summaryOutputToJson, parseCount,
        initialState, parseSummaryOutput_roundtrip]

/-- C7: evidence against the claim that loadState never raises and leaves the
state empty on any corrupt file. First input: a well-formed JSON object whose
history entry is valid but whose summary_output fails validation — the
ValidationError is caught, yet the history assigned just before stays loaded,
so the post-call state is not the empty state (the handler logs Starting
fresh without resetting anything). Second input: a JSON file whose top level
is an array — calling .get on it raises an uncaught AttributeError, which
propagates out of loadState. -/
theorem load_state_corrupt_not_fresh :
    load_state initialState (.parsed (JValue.obj
      [("history", .arr [.obj [("role", .str "u"), ("content", .str "hi")]]),
       ("summary_output", .obj [("bad", .num 1)])])) =
      .ok { history := [{ role := "u", content := "hi" }]
            summary_output := none
            summarized_count := 0 } ∧
    ({ history := [({ role := "u", content := "hi" } : ChatMessage)]
       summary_output := none
       summarized_count := 0 } : MemoryState) ≠ initialState ∧
    load_state initialState (.parsed (.arr [])) = .error .attributeError := by
  refine ⟨rfl, ?_, rfl⟩
  decide
